import Mathlib

/-!
Verification development for the resilient MCP RPC client
(next-app src/lib/mcp.ts): circuit breaker, retry policy,
transport codec (plain JSON / SSE framing) and the public
fact operations. Definitions are shallow embeddings of the
TypeScript source; theorems settle the specified properties.
-/

/-- Errors thrown inside the client are modelled by their message string,
mirroring JavaScript Error objects (only the message is inspected anywhere). -/
structure Err where
  msg : String
deriving DecidableEq, Repr

/-- Does the first character list occur as a prefix of the second? -/
def prefixCheck : List Char → List Char → Bool
  | [], _ => true
  | _ :: _, [] => false
  | p :: ps, c :: cs => p = c && prefixCheck ps cs

/-- Does the first character list occur contiguously inside the second? -/
def infixCheck (pat : List Char) : List Char → Bool
  | [] => prefixCheck pat []
  | c :: cs => prefixCheck pat (c :: cs) || infixCheck pat cs

/-- Model of JavaScript String.prototype.includes. -/
def strIncludes (s pat : String) : Bool := infixCheck pat.data s.data

/-- Model of JavaScript String.prototype.startsWith. -/
def strStartsWith (s pat : String) : Bool := prefixCheck pat.data s.data

/-- Model of JavaScript String.prototype.substring(n): drop n characters. -/
def strDrop (s : String) (n : Nat) : String := ⟨s.data.drop n⟩

/-- Split a character list at every occurrence of a separator. -/
def splitOnChar (sep : Char) : List Char → List (List Char)
  | [] => [[]]
  | c :: cs =>
    let rest := splitOnChar sep cs
    if c = sep then [] :: rest
    else
      match rest with
      | r :: rs => (c :: r) :: rs
      | [] => [[c]]

/-- Model of JavaScript String.prototype.split with a newline separator. -/
def splitLines (s : String) : List String :=
  (splitOnChar '\n' s.data).map String.mk

/-- The error classification of makeRequestWithRetry (line 184):
errors whose message contains 400, 401 or 403 are not retried. -/
def nonRetryable (e : Err) : Bool :=
  strIncludes e.msg "400" || strIncludes e.msg "401" || strIncludes e.msg "403"

/-- The dedicated error thrown while the breaker is OPEN (line 97). -/
def breakerOpenErr : Err := ⟨"Circuit breaker is OPEN - MCP server unavailable"⟩

/-- The three circuit-breaker states (line 84). -/
inductive BState where
  | CLOSED
  | OPEN
  | HALF_OPEN
deriving DecidableEq, Repr

/-- The mutable fields of the CircuitBreaker class (lines 82-84):
failures, lastFailureTime, state. -/
structure BreakerState where
  failures : Nat
  lastFailureTime : Nat
  state : BState
deriving DecidableEq, Repr

/-- Initial breaker state: failures = 0, lastFailureTime = 0, CLOSED. -/
def initBreaker : BreakerState := ⟨0, 0, .CLOSED⟩

/-- The synchronous prefix of CircuitBreaker.execute (lines 92-99): if the
state is OPEN and the recovery timeout has elapsed, transition to HALF_OPEN
and allow the call; if OPEN and not elapsed, reject (the returned Bool is
false and the caller throws the breaker-open error); otherwise allow. -/
def preCheck (recoveryTimeout : Nat) (s : BreakerState) (now : Nat) :
    BreakerState × Bool :=
  if s.state = .OPEN then
    if now - s.lastFailureTime > recoveryTimeout then
      ({ s with state := .HALF_OPEN }, true)
    else (s, false)
  else (s, true)

/-- CircuitBreaker.onSuccess (lines 111-114): reset failures, close. -/
def onSuccess (s : BreakerState) : BreakerState :=
  { s with failures := 0, state := .CLOSED }

/-- CircuitBreaker.onFailure (lines 116-124): increment failures, record the
failure time, and open once the threshold is reached. -/
def onFailure (failureThreshold : Nat) (s : BreakerState) (now : Nat) :
    BreakerState :=
  let f := s.failures + 1
  { failures := f, lastFailureTime := now,
    state := if failureThreshold ≤ f then .OPEN else s.state }

/-- Result of one CircuitBreaker.execute call: the updated breaker, the
updated client state threaded through the wrapped operation, the outcome,
and whether the wrapped operation was invoked at all (false exactly when
the breaker rejected the call without any network attempt). -/
structure ExecResult (σ α : Type) where
  breaker : BreakerState
  client : σ
  result : Except Err α
  attempted : Bool

/-- CircuitBreaker.execute (lines 91-109). The wrapped operation is a state
transformer returning a result or an error; tStart is the clock at the OPEN
check and tEnd the clock when a failure is recorded. -/
def CircuitBreaker.execute (thr rt : Nat) (s : BreakerState) (tStart tEnd : Nat)
    (op : σ → σ × Except Err α) (cs : σ) : ExecResult σ α :=
  match preCheck rt s tStart with
  | (s1, true) =>
    let cs2 := (op cs).1
    match (op cs).2 with
    | .ok a => ⟨onSuccess s1, cs2, .ok a, true⟩
    | .error e => ⟨onFailure thr s1 tEnd, cs2, .error e, true⟩
  | (s1, false) => ⟨s1, cs, .error breakerOpenErr, false⟩

/-- Observable events of the retry loop, in order: backoff sleeps and
invocations of makeRequest (attempt k). -/
inductive REv where
  | sleep (ms : Nat)
  | tryAttempt (k : Nat)
deriving DecidableEq, Repr

/-- Number of makeRequest invocations recorded in an event list. -/
def countAttempts (es : List REv) : Nat :=
  (es.filter (fun e => match e with | .tryAttempt _ => true | _ => false)).length

/-- Outcome of the retry loop: final threaded state, result, event trace. -/
structure RetryTrace (σ α : Type) where
  final : σ
  result : Except Err α
  events : List REv

/-- The body of the retry loop of makeRequestWithRetry (lines 170-197),
recursing over the remaining fuel (the loop runs while attempt le maxA, so
fuel starts at maxA): before attempt k with k greater than 1, sleep
delay * k; call the step; on success return; on a non-retryable error or on
the last attempt rethrow the error (lastError is the error just caught);
otherwise continue with attempt k+1. Fuel 0 models the loop never running
(retryAttempts = 0), where lastError is null and the dedicated unknown
error is thrown (line 197). -/
def retryAux (step : Nat → σ → σ × Except Err α) (maxA delay : Nat) :
    Nat → Nat → σ → RetryTrace σ α
  | _, 0, st => ⟨st, .error ⟨"Unknown error during retry attempts"⟩, []⟩
  | k, fuel+1, st =>
    let pre : List REv := if 1 < k then [REv.sleep (delay * k)] else []
    let st2 := (step k st).1
    match (step k st).2 with
    | .ok a => ⟨st2, .ok a, pre ++ [REv.tryAttempt k]⟩
    | .error e =>
      if nonRetryable e then ⟨st2, .error e, pre ++ [REv.tryAttempt k]⟩
      else if k == maxA then ⟨st2, .error e, pre ++ [REv.tryAttempt k]⟩
      else
        let t := retryAux step maxA delay (k+1) fuel st2
        ⟨t.final, t.result, pre ++ REv.tryAttempt k :: t.events⟩

/-- The retry loop entered at attempt 1 with fuel maxA. -/
def retryLoop (step : Nat → σ → σ × Except Err α) (maxA delay : Nat)
    (st : σ) : RetryTrace σ α :=
  retryAux step maxA delay 1 maxA st

/-- MCPClient.makeRequestWithRetry (lines 168-199): the whole retry loop is
the single operation wrapped by circuitBreaker.execute. -/
def makeRequestWithRetry (thr rt maxA delay : Nat)
    (step : Nat → σ → σ × Except Err α) (bs : BreakerState) (cs : σ)
    (tS tE : Nat) : ExecResult σ α × List REv :=
  match preCheck rt bs tS with
  | (s1, true) =>
    let t := retryLoop step maxA delay cs
    match t.result with
    | .ok a => (⟨onSuccess s1, t.final, .ok a, true⟩, t.events)
    | .error e => (⟨onFailure thr s1 tE, t.final, .error e, true⟩, t.events)
  | (s1, false) => (⟨s1, cs, .error breakerOpenErr, false⟩, [])

/-- Runtime JSON values as produced by JSON.parse. Numbers are modelled as
integers: every numeric literal appearing in this subsystem is integral. -/
inductive Json where
  | null
  | bool (b : Bool)
  | num (n : Int)
  | str (s : String)
  | arr (elems : List Json)
  | obj (fields : List (String × Json))

/-- Skip JSON whitespace. -/
def skipWs : List Char → List Char
  | c :: cs =>
    if c = ' ' || c = '\t' || c = '\n' || c = '\r' then skipWs cs else c :: cs
  | [] => []

/-- Decode one character escape inside a JSON string literal. -/
def escDecode (e : Char) : Option Char :=
  if e = '\"' then some '\"'
  else if e = '\\' then some '\\'
  else if e = '/' then some '/'
  else if e = 'n' then some '\n'
  else if e = 't' then some '\t'
  else if e = 'r' then some '\r'
  else if e = 'b' then some (Char.ofNat 8)
  else if e = 'f' then some (Char.ofNat 12)
  else none

/-- Parse the body of a JSON string literal after its opening quote,
returning the decoded characters and the input after the closing quote. -/
def parseStrChars : List Char → Option (List Char × List Char)
  | [] => none
  | c :: cs =>
    if c = '\"' then some ([], cs)
    else if c = '\\' then
      match cs with
      | [] => none
      | e :: cs2 =>
        match escDecode e, parseStrChars cs2 with
        | some d, some (s, rest) => some (d :: s, rest)
        | _, _ => none
    else
      match parseStrChars cs with
      | some (s, rest) => some (c :: s, rest)
      | none => none

/-- Take a maximal run of decimal digits. -/
def takeDigits : List Char → List Char × List Char
  | [] => ([], [])
  | c :: cs =>
    if c.isDigit then
      let (ds, rest) := takeDigits cs
      (c :: ds, rest)
    else ([], c :: cs)

/-- Decimal digit characters to a natural number. -/
def digitsToNat (ds : List Char) : Nat :=
  ds.foldl (fun acc c => acc * 10 + (c.toNat - 48)) 0

/-- Match an expected literal character sequence. -/
def dropLit : List Char → List Char → Option (List Char)
  | [], cs => some cs
  | l :: ls, c :: cs => if c = l then dropLit ls cs else none
  | _ :: _, [] => none

/-- Finish a numeric literal: the model accepts only integer literals, so a
following fraction or exponent marker makes parsing fail. -/
def numTail (n : Int) (rest : List Char) : Option (Json × List Char) :=
  match rest with
  | c :: _ => if c = '.' || c = 'e' || c = 'E' then none else some (.num n, rest)
  | [] => some (.num n, [])

mutual

/-- Recursive-descent JSON value parser (model of the JSON.parse grammar,
restricted to integer numerics); fuel strictly decreases on every call. -/
def parseValue : Nat → List Char → Option (Json × List Char)
  | 0, _ => none
  | fuel+1, cs0 =>
    match skipWs cs0 with
    | [] => none
    | c :: cs =>
      if c = '\"' then
        match parseStrChars cs with
        | some (s, rest) => some (.str (String.mk s), rest)
        | none => none
      else if c = Char.ofNat 123 then
        match skipWs cs with
        | c2 :: cs2 =>
          if c2 = Char.ofNat 125 then some (.obj [], cs2)
          else
            match parseMembers fuel (c2 :: cs2) with
            | some (ms, rest) => some (.obj ms, rest)
            | none => none
        | [] => none
      else if c = '[' then
        match skipWs cs with
        | c2 :: cs2 =>
          if c2 = ']' then some (.arr [], cs2)
          else
            match parseElems fuel (c2 :: cs2) with
            | some (vs, rest) => some (.arr vs, rest)
            | none => none
        | [] => none
      else if c = 't' then
        match dropLit "rue".data cs with
        | some rest => some (.bool true, rest)
        | none => none
      else if c = 'f' then
        match dropLit "alse".data cs with
        | some rest => some (.bool false, rest)
        | none => none
      else if c = 'n' then
        match dropLit "ull".data cs with
        | some rest => some (.null, rest)
        | none => none
      else if c = '-' then
        match takeDigits cs with
        | ([], _) => none
        | (ds, rest) => numTail (-(Int.ofNat (digitsToNat ds))) rest
      else if c.isDigit then
        match takeDigits (c :: cs) with
        | (ds, rest) => numTail (Int.ofNat (digitsToNat ds)) rest
      else none

/-- Parse one or more key-value members followed by a closing brace. -/
def parseMembers : Nat → List Char → Option (List (String × Json) × List Char)
  | 0, _ => none
  | fuel+1, cs =>
    match skipWs cs with
    | c :: cs2 =>
      if c = '\"' then
        match parseStrChars cs2 with
        | some (k, cs3) =>
          match skipWs cs3 with
          | c4 :: cs4 =>
            if c4 = ':' then
              match parseValue fuel cs4 with
              | some (v, cs5) =>
                match skipWs cs5 with
                | c6 :: cs6 =>
                  if c6 = ',' then
                    match parseMembers fuel cs6 with
                    | some (ms, rest) => some ((String.mk k, v) :: ms, rest)
                    | none => none
                  else if c6 = Char.ofNat 125 then
                    some ([(String.mk k, v)], cs6)
                  else none
                | [] => none
              | none => none
            else none
          | [] => none
        | none => none
      else none
    | [] => none

/-- Parse one or more array elements followed by a closing bracket. -/
def parseElems : Nat → List Char → Option (List Json × List Char)
  | 0, _ => none
  | fuel+1, cs =>
    match parseValue fuel cs with
    | some (v, cs2) =>
      match skipWs cs2 with
      | c3 :: cs3 =>
        if c3 = ',' then
          match parseElems fuel cs3 with
          | some (vs, rest) => some (v :: vs, rest)
          | none => none
        else if c3 = ']' then some ([v], cs3)
        else none
      | [] => none
    | none => none

end

/-- Model of JSON.parse: parse one value and require only whitespace after
it; any failure corresponds to a thrown SyntaxError. -/
def JSON.parse (s : String) : Option Json :=
  match parseValue (s.length + 1) s.data with
  | some (j, rest) => if skipWs rest = [] then some j else none
  | none => none

/-- JavaScript truthiness of a JSON value. -/
def isTruthy : Json → Bool
  | .null => false
  | .bool b => b
  | .num n => !(n == 0)
  | .str s => !(s == "")
  | .arr _ => true
  | .obj _ => true

/-- First binding of a key in an object field list. -/
def lookupField : List (String × Json) → String → Option Json
  | [], _ => none
  | (k, v) :: rest, key => if k = key then some v else lookupField rest key

/-- Property read returning undefined (none) when absent or when the value
is not an object. -/
def Json.getField : Json → String → Option Json
  | .obj fields, key => lookupField fields key
  | _, _ => none

/-- Model of the SyntaxError thrown by JSON.parse; its message never
contains the digit sequences 400, 401 or 403 for the short bodies in
this subsystem. -/
def syntaxErr : Err := ⟨"SyntaxError: Unexpected token in JSON"⟩

/-- Model of the TypeError thrown by a property read on null. -/
def typeErrNull : Err := ⟨"TypeError: Cannot read properties of null"⟩

/-- JavaScript property access x.key: throws a TypeError when x is null,
otherwise yields the field (undefined when absent or x not an object). -/
def accessField (j : Json) (key : String) : Except Err (Option Json) :=
  match j with
  | .null => .error typeErrNull
  | .obj fields => .ok (lookupField fields key)
  | _ => .ok none

mutual

/-- JavaScript ToString on a JSON value (arrays join their elements with
commas, null elements rendering empty, as in Array.prototype.toString). -/
def jsToString : Json → String
  | .null => "null"
  | .bool b => cond b "true" "false"
  | .num n => toString n
  | .str s => s
  | .obj _ => "[object Object]"
  | .arr xs => String.intercalate "," (jsArrElems xs)

/-- Rendered elements of an array under ToString. -/
def jsArrElems : List Json → List String
  | [] => []
  | .null :: rest => "" :: jsArrElems rest
  | j :: rest => jsToString j :: jsArrElems rest

end

/-- The text interpolated for parsed.error.message (lines 251 and 264):
the message property stringified, or undefined when absent. -/
def errMessageText : Json → String
  | .obj fields =>
    match lookupField fields "message" with
    | some m => jsToString m
    | none => "undefined"
  | _ => "undefined"

/-- Per-envelope step of the decoder (lines 250-256 and 263-265 share it):
throw the MCP protocol error when the error field is truthy (a read on a
null envelope throws a TypeError), return the result field when present,
otherwise signal neither (ok none). -/
def dataLineStep (parsed : Json) : Except Err (Option Json) :=
  match accessField parsed "error" with
  | .error e => .error e
  | .ok errF =>
    let resultCheck : Except Err (Option Json) :=
      match parsed.getField "result" with
      | some r => .ok (some r)
      | none => .ok none
    match errF with
    | some ev =>
      if isTruthy ev then .error ⟨"MCP error: " ++ errMessageText ev⟩
      else resultCheck
    | none => resultCheck

/-- What one line of an SSE body contributes (lines 246-257): none when the
line is not a data line or its envelope carries neither a truthy error nor
a result; otherwise the decision (the parsed result, the protocol error, or
the SyntaxError of a malformed data payload). -/
def dataDecision (line : String) : Option (Except Err Json) :=
  if strStartsWith line "data: " then
    match JSON.parse (strDrop line 6) with
    | none => some (.error syntaxErr)
    | some parsed =>
      match dataLineStep parsed with
      | .error e => some (.error e)
      | .ok (some r) => some (.ok r)
      | .ok none => none
  else none

/-- The SSE line scan (lines 244-259): first decision wins; if no line
decides, the dedicated no-valid-result protocol error is thrown. -/
def sseScan : List String → Except Err Json
  | [] => .error ⟨"No valid result found in SSE response"⟩
  | line :: rest =>
    match dataDecision line with
    | some d => d
    | none => sseScan rest

/-- The plain JSON branch of response decoding (lines 260-270). -/
def plainDecode (body : String) : Except Err Json :=
  match JSON.parse body with
  | none => .error syntaxErr
  | some result =>
    match dataLineStep result with
    | .error e => .error e
    | .ok (some r) => .ok r
    | .ok none => .error ⟨"No result found in response"⟩

/-- Response-body decoding of makeRequest (lines 240-270): bodies containing
the text event: message take the SSE path, others the plain JSON path. -/
def decodeBody (responseText : String) : Except Err Json :=
  if strIncludes responseText "event: message" then
    sseScan (splitLines responseText)
  else plainDecode responseText

/-- The relevant parts of an HTTP response: ok flag, status code, the
optional mcp-session-id header, and the body text. -/
structure HttpResponse where
  ok : Bool
  status : Nat
  sessionId : Option String
  body : String
deriving DecidableEq, Repr

/-- Possible outcomes of one fetch: a response, an abort by the timeout
controller, or a connection-level failure with its message. -/
inductive FetchOutcome where
  | success (r : HttpResponse)
  | abortTimeout
  | failure (msg : String)
deriving DecidableEq, Repr

/-- The per-request timeout of MCPClient (line 136), in milliseconds. -/
def clientTimeoutMs : Nat := 15000

/-- The retry attempt count of MCPClient (line 137). -/
def clientRetryAttempts : Nat := 3

/-- The base retry delay of MCPClient (line 138), in milliseconds. -/
def clientRetryDelayMs : Nat := 1000

/-- The breaker failure threshold default (line 87). -/
def clientFailureThreshold : Nat := 5

/-- The breaker recovery timeout default (line 88), in milliseconds. -/
def clientRecoveryTimeoutMs : Nat := 30000

/-- MCPClient.fetchWithTimeout (lines 148-166): an abort becomes the
dedicated timeout error, other fetch errors are rethrown unchanged. -/
def fetchWithTimeout (o : FetchOutcome) (timeoutMs : Nat) :
    Except Err HttpResponse :=
  match o with
  | .success r => .ok r
  | .abortTimeout => .error ⟨"Request timeout after " ++ toString timeoutMs ++ "ms"⟩
  | .failure m => .error ⟨m⟩

/-- The session-relevant mutable fields of MCPClient (lines 133-134). -/
structure ClientState where
  sessionId : Option String
  initialized : Bool
deriving DecidableEq, Repr

/-- One HTTP exchange of makeRequest (lines 224-270): fetch with timeout,
reject non-2xx statuses, capture a session header if present, then decode
the body. -/
def makeRequestCore (st : ClientState) (f : FetchOutcome) :
    ClientState × Except Err Json :=
  match fetchWithTimeout f clientTimeoutMs with
  | .error e => (st, .error e)
  | .ok r =>
    if r.ok = false then
      (st, .error ⟨"HTTP error! status: " ++ toString r.status⟩)
    else
      let st2 := match r.sessionId with
        | some sid => { st with sessionId := some sid }
        | none => st
      (st2, decodeBody r.body)

/-- MCPClient.makeRequest (lines 201-271) including the lazy handshake
(lines 203-205 with initialize, lines 273-297): an uninitialized client
performing a non-initialize call first runs the initialize exchange, whose
failure propagates; its success sets the initialized flag. The fetch
outcomes of the handshake exchange and of the main exchange are fInit and
fMain. -/
def makeRequest (st : ClientState) (method : String)
    (fInit fMain : FetchOutcome) : ClientState × Except Err Json :=
  if st.initialized = false ∧ method ≠ "initialize" then
    match makeRequestCore st fInit with
    | (st1, .error e) => (st1, .error e)
    | (st1, .ok _) => makeRequestCore { st1 with initialized := true } fMain
  else makeRequestCore st fMain

/-- The retry step used by the client: attempt k of a method performs one
makeRequest whose transport behavior (handshake and main exchange) is
chosen by the oracle for that attempt. -/
def mcpStep (method : String) (oracle : Nat → FetchOutcome × FetchOutcome) :
    Nat → ClientState → ClientState × Except Err Json :=
  fun k st => makeRequest st method (oracle k).1 (oracle k).2

/-- The client composition used by every public operation: the breaker with
its defaults wrapping the 3-attempt retry loop over tools/call requests. -/
def clientCall (oracle : Nat → FetchOutcome × FetchOutcome)
    (bs : BreakerState) (cs : ClientState) (tS tE : Nat) :
    ExecResult ClientState Json × List REv :=
  makeRequestWithRetry clientFailureThreshold clientRecoveryTimeoutMs
    clientRetryAttempts clientRetryDelayMs (mcpStep "tools/call" oracle)
    bs cs tS tE

/-- CreateFact (types/fact.ts): the payload of create-fact. -/
structure CreateFact where
  subject : String
  predicate : String
  object : String
  userId : String

/-- Partial fact update payload of updateFact. -/
structure FactPatch where
  subject : Option String
  predicate : Option String
  object : Option String

/-- The runtime shape of a returned memory context: the userId and facts
values taken from the parsed response text (unvalidated JSON at runtime). -/
structure MemoryContextV where
  userId : Json
  facts : Json

/-- The success-branch post-processing of getMemoryContext (lines 339-352)
with every throwing spot folded to the empty context that the surrounding
catch would produce: content must be a truthy nonempty array, its first
element a truthy object with a text field (a property-in test on a truthy
primitive throws a TypeError, caught outside), whose stringified value must
parse as JSON (a SyntaxError or a property read on parsed null is caught
outside); finally userId and facts fall back under JavaScript or-defaults. -/
def parseMemoryResult (userId : String) (result : Json) : MemoryContextV :=
  let emptyCtx : MemoryContextV := ⟨.str userId, .arr []⟩
  match accessField result "content" with
  | .error _ => emptyCtx
  | .ok none => emptyCtx
  | .ok (some c) =>
    if isTruthy c = false then emptyCtx
    else
      match c with
      | .arr [] => emptyCtx
      | .arr (firstContent :: _) =>
        if isTruthy firstContent = false then emptyCtx
        else
          match firstContent with
          | .obj fields =>
            match lookupField fields "text" with
            | none => emptyCtx
            | some textJ =>
              match JSON.parse (jsToString textJ) with
              | none => emptyCtx
              | some data =>
                match accessField data "userId" with
                | .error _ => emptyCtx
                | .ok uidF =>
                  let uid := match uidF with
                    | some u => if isTruthy u then u else Json.str userId
                    | none => Json.str userId
                  let fs := match data.getField "facts" with
                    | some f => if isTruthy f then f else Json.arr []
                    | none => Json.arr []
                  ⟨uid, fs⟩
          | _ => emptyCtx
      | _ => emptyCtx

/-- MCPClient.pushFact (lines 310-328): issue the retried tools/call and
convert any error into the boolean false. -/
def pushFact (fact : CreateFact) (oracle : Nat → FetchOutcome × FetchOutcome)
    (bs : BreakerState) (cs : ClientState) (tS tE : Nat) :
    BreakerState × ClientState × Bool :=
  let r := (clientCall oracle bs cs tS tE).1
  match r.result with
  | .ok _ => (r.breaker, r.client, true)
  | .error _ => (r.breaker, r.client, false)

/-- MCPClient.updateFact (lines 360-380): same catch-all conversion. -/
def updateFact (factId : String) (patch : FactPatch)
    (oracle : Nat → FetchOutcome × FetchOutcome)
    (bs : BreakerState) (cs : ClientState) (tS tE : Nat) :
    BreakerState × ClientState × Bool :=
  let r := (clientCall oracle bs cs tS tE).1
  match r.result with
  | .ok _ => (r.breaker, r.client, true)
  | .error _ => (r.breaker, r.client, false)

/-- MCPClient.deleteFact (lines 382-395): same catch-all conversion. -/
def deleteFact (factId : String)
    (oracle : Nat → FetchOutcome × FetchOutcome)
    (bs : BreakerState) (cs : ClientState) (tS tE : Nat) :
    BreakerState × ClientState × Bool :=
  let r := (clientCall oracle bs cs tS tE).1
  match r.result with
  | .ok _ => (r.breaker, r.client, true)
  | .error _ => (r.breaker, r.client, false)

/-- MCPClient.getMemoryContext (lines 330-358): any error from the retried
call or from the post-processing yields the empty context for the
requested user. -/
def getMemoryContext (userId : String)
    (oracle : Nat → FetchOutcome × FetchOutcome)
    (bs : BreakerState) (cs : ClientState) (tS tE : Nat) :
    BreakerState × ClientState × MemoryContextV :=
  let r := (clientCall oracle bs cs tS tE).1
  match r.result with
  | .ok result => (r.breaker, r.client, parseMemoryResult userId result)
  | .error _ => (r.breaker, r.client, ⟨.str userId, .arr []⟩)

/-! ## Circuit-breaker lemmas -/

/-- preCheck never changes the failure counter. -/
theorem preCheck_failures (rt : Nat) (s : BreakerState) (t : Nat) :
    ((preCheck rt s t).1).failures = s.failures := by
  unfold preCheck; split_ifs <;> rfl

/-- preCheck never changes the recorded failure time. -/
theorem preCheck_lastFailureTime (rt : Nat) (s : BreakerState) (t : Nat) :
    ((preCheck rt s t).1).lastFailureTime = s.lastFailureTime := by
  unfold preCheck; split_ifs <;> rfl

/-- C3: an OPEN breaker with at least threshold-many failures recorded at
time T, with recoveryTimeout 30, lets the call at T+31 through: preCheck
transitions it to HALF_OPEN and allows the probe; a successful probe closes
the breaker with the counter reset to 0; a failing probe reopens it with
the counter incremented and the failure time updated. -/
theorem breaker_halfopen_probe {σ α : Type} (f T tE : Nat) (hf : 5 ≤ f)
    (op : σ → σ × Except Err α) (cs : σ) :
    preCheck 30 ⟨f, T, .OPEN⟩ (T + 31) = (⟨f, T, .HALF_OPEN⟩, true) ∧
    (∀ cs2 a, op cs = (cs2, .ok a) →
      CircuitBreaker.execute 5 30 ⟨f, T, .OPEN⟩ (T + 31) tE op cs =
        ⟨⟨0, T, .CLOSED⟩, cs2, .ok a, true⟩) ∧
    (∀ cs2 e, op cs = (cs2, .error e) →
      CircuitBreaker.execute 5 30 ⟨f, T, .OPEN⟩ (T + 31) tE op cs =
        ⟨⟨f + 1, tE, .OPEN⟩, cs2, .error e, true⟩) := by
  have hpre : preCheck 30 ⟨f, T, .OPEN⟩ (T + 31) = (⟨f, T, .HALF_OPEN⟩, true) := by
    unfold preCheck
    simp [Nat.add_sub_cancel_left]
  refine ⟨hpre, ?_, ?_⟩
  · intro cs2 a hop
    unfold CircuitBreaker.execute
    rw [hpre]
    simp [hop, onSuccess]
  · intro cs2 e hop
    have h51 : 5 ≤ f + 1 := by omega
    unfold CircuitBreaker.execute
    rw [hpre]
    simp [hop, onFailure, h51]

theorem breaker_halfopen_probe_w :
    preCheck 30 ⟨5, 7, .OPEN⟩ (7 + 31) = (⟨5, 7, .HALF_OPEN⟩, true) ∧
    CircuitBreaker.execute 5 30 ⟨5, 7, .OPEN⟩ (7 + 31) 40
      (fun (u : Unit) => (u, (Except.ok 0 : Except Err Nat))) () =
      ⟨⟨0, 7, .CLOSED⟩, (), .ok 0, true⟩ := by
  have h := breaker_halfopen_probe 5 7 40 (by decide)
    (fun (u : Unit) => (u, (Except.ok 0 : Except Err Nat))) ()
  exact ⟨h.1, h.2.1 () 0 rfl⟩

/-- C10 counterexample: the first call on an OPEN breaker at time 31 (last
failure at 0, timeout 30) synchronously transitions to HALF_OPEN and is
allowed through; while that probe is in flight the stored state is
HALF_OPEN, and a second concurrent call executed against it is ALSO passed
through to the wrapped operation (attempted = true), contradicting the
claim that at most one probe may be in flight. -/
theorem halfopen_concurrent_probe_cex :
    (preCheck 30 ⟨5, 0, .OPEN⟩ 31).2 = true ∧
    (preCheck 30 ⟨5, 0, .OPEN⟩ 31).1.state = BState.HALF_OPEN ∧
    (CircuitBreaker.execute 5 30 (preCheck 30 ⟨5, 0, .OPEN⟩ 31).1 31 31
      (fun (u : Unit) => (u, (Except.ok 0 : Except Err Nat))) ()).attempted
      = true := by decide

/-- C10 amended: after the recovery timeout elapses, the next call is
allowed through as a HALF_OPEN probe, but the breaker imposes no
single-probe limit: every call executed while the state is HALF_OPEN is
passed through to the wrapped operation. -/
theorem halfopen_no_single_probe_limit {σ α : Type}
    (thr rt f T t t2 t3 : Nat) (h : t - T > rt)
    (op : σ → σ × Except Err α) (cs : σ) (s2 : BreakerState)
    (h2 : s2.state = .HALF_OPEN) :
    preCheck rt ⟨f, T, .OPEN⟩ t = (⟨f, T, .HALF_OPEN⟩, true) ∧
    (CircuitBreaker.execute thr rt s2 t2 t3 op cs).attempted = true := by
  constructor
  · unfold preCheck
    simp [h]
  · unfold CircuitBreaker.execute preCheck
    rw [h2]
    cases hop : (op cs).2 <;> simp [hop]

theorem halfopen_no_single_probe_limit_w :
    preCheck 30 ⟨5, 0, .OPEN⟩ 31 = (⟨5, 0, .HALF_OPEN⟩, true) ∧
    (CircuitBreaker.execute 5 30 ⟨5, 0, .HALF_OPEN⟩ 31 31
      (fun (u : Unit) => (u, (Except.ok 0 : Except Err Nat))) ()).attempted
      = true :=
  halfopen_no_single_probe_limit 5 30 5 0 31 31 31 (by decide)
    (fun (u : Unit) => (u, (Except.ok 0 : Except Err Nat))) ()
    ⟨5, 0, .HALF_OPEN⟩ rfl

/-- Outcome of one breaker-wrapped call in a trace: the wrapped retried
operation either succeeds or throws. -/
inductive CallOutcome where
  | succeed
  | fail (e : Err)
deriving DecidableEq, Repr

/-- The trivial wrapped operation realizing a prescribed outcome. -/
def callOp (o : CallOutcome) : Unit → Unit × Except Err Unit :=
  fun u => (u, match o with | .succeed => .ok () | .fail e => .error e)

/-- Fold a sequence of breaker-wrapped calls, each given by its check
clock, its record clock and the outcome of its wrapped operation. -/
def runCalls (thr rt : Nat) :
    List (Nat × Nat × CallOutcome) → BreakerState → BreakerState
  | [], s => s
  | (t1, t2, o) :: rest, s =>
    runCalls thr rt rest
      (CircuitBreaker.execute thr rt s t1 t2 (callOp o) ()).breaker

/-- One execute call preserves the invariant that an OPEN breaker has at
least threshold-many recorded failures. -/
theorem execute_preserves_open_inv {σ α : Type} (thr rt t1 t2 : Nat)
    (op : σ → σ × Except Err α) (cs : σ) (s : BreakerState)
    (h : s.state = .OPEN → thr ≤ s.failures) :
    (CircuitBreaker.execute thr rt s t1 t2 op cs).breaker.state = .OPEN →
    thr ≤ (CircuitBreaker.execute thr rt s t1 t2 op cs).breaker.failures := by
  unfold CircuitBreaker.execute preCheck
  by_cases hO : s.state = .OPEN
  · by_cases ht : t1 - s.lastFailureTime > rt
    · cases hop : (op cs).2 with
      | ok a => simp [hO, ht, hop, onSuccess]
      | error e =>
        simp only [hO, ht, hop, onFailure, if_true, if_pos]
        by_cases hthr : thr ≤ s.failures + 1
        · simp [hthr]
        · simp [hthr]
    · simp only [hO, ht, if_pos, if_neg, if_false]
      simp [hO]
      exact h hO
  · cases hop : (op cs).2 with
    | ok a => simp [hO, hop, onSuccess]
    | error e =>
      simp only [hO, hop, onFailure, if_false, if_neg]
      by_cases hthr : thr ≤ s.failures + 1
      · simp [hthr]
      · simp [hthr]
        intro hst
        exact absurd hst hO

/-- The OPEN-implies-threshold invariant is preserved along any trace. -/
theorem runCalls_open_inv (thr rt : Nat)
    (trace : List (Nat × Nat × CallOutcome)) :
    ∀ s : BreakerState, (s.state = .OPEN → thr ≤ s.failures) →
    (runCalls thr rt trace s).state = .OPEN →
    thr ≤ (runCalls thr rt trace s).failures := by
  induction trace with
  | nil => intro s h; exact h
  | cons hd rest ih =>
    intro s h
    obtain ⟨t1, t2, o⟩ := hd
    exact ih _ (execute_preserves_open_inv thr rt t1 t2 (callOp o) () s h)

/-- C9: in every breaker state reachable from the initial CLOSED state with
0 failures, under any sequence of execute calls with any outcomes and any
clocks, an OPEN state implies at least failureThreshold = 5 recorded
consecutive failures. -/
theorem breaker_open_implies_threshold
    (trace : List (Nat × Nat × CallOutcome))
    (h : (runCalls 5 30000 trace initBreaker).state = .OPEN) :
    5 ≤ (runCalls 5 30000 trace initBreaker).failures :=
  runCalls_open_inv 5 30000 trace initBreaker
    (fun h0 => absurd h0 (by simp [initBreaker])) h

theorem breaker_open_implies_threshold_w :
    (runCalls 5 30000
        [(0, 0, .fail ⟨"x"⟩), (1, 1, .fail ⟨"x"⟩), (2, 2, .fail ⟨"x"⟩),
         (3, 3, .fail ⟨"x"⟩), (4, 4, .fail ⟨"x"⟩)] initBreaker).state
      = .OPEN ∧
    5 ≤ (runCalls 5 30000
        [(0, 0, .fail ⟨"x"⟩), (1, 1, .fail ⟨"x"⟩), (2, 2, .fail ⟨"x"⟩),
         (3, 3, .fail ⟨"x"⟩), (4, 4, .fail ⟨"x"⟩)] initBreaker).failures :=
  ⟨by decide, breaker_open_implies_threshold _ (by decide)⟩

/-- Fold a sequence of breaker-wrapped calls each of whose wrapped retried
operation fails (retries already exhausted inside), so the breaker records
one failure whenever the call is let through. -/
def runFailingCalls (thr rt : Nat) :
    List (Nat × Nat × Err) → BreakerState → BreakerState
  | [], s => s
  | (t1, t2, e) :: rest, s =>
    runFailingCalls thr rt rest
      (CircuitBreaker.execute thr rt s t1 t2
        (fun (u : Unit) => (u, (.error e : Except Err Unit))) ()).breaker

/-- Breaker evolution of a single failing call, by case on the state. -/
theorem executeFail_breaker (thr rt t1 t2 : Nat) (e : Err) (s : BreakerState) :
    (CircuitBreaker.execute thr rt s t1 t2
      (fun (u : Unit) => (u, (.error e : Except Err Unit))) ()).breaker =
    if s.state = .OPEN then
      (if t1 - s.lastFailureTime > rt then
        onFailure thr { s with state := .HALF_OPEN } t2
      else s)
    else onFailure thr s t2 := by
  unfold CircuitBreaker.execute preCheck
  by_cases h1 : s.state = .OPEN
  · by_cases h2 : t1 - s.lastFailureTime > rt
    · simp [h1, h2]
    · simp [h1, h2]
  · simp [h1]

/-- Any sequence of failing calls long enough to exhaust the remaining
threshold budget drives the breaker to OPEN with at least 5 failures, and
OPEN with at least 5 failures is absorbing under failing calls. -/
theorem runFailingCalls_opens (rt : Nat)
    (trace : List (Nat × Nat × Err)) :
    ∀ s : BreakerState,
    ((s.state = .CLOSED ∧ s.failures < 5 ∧ 5 - s.failures ≤ trace.length) ∨
     (s.state = .OPEN ∧ 5 ≤ s.failures)) →
    (runFailingCalls 5 rt trace s).state = .OPEN ∧
    5 ≤ (runFailingCalls 5 rt trace s).failures := by
  induction trace with
  | nil =>
    intro s h
    rcases h with ⟨hc, hf, hlen⟩ | ⟨ho, hf⟩
    · simp only [List.length_nil] at hlen
      exact absurd rfl (by omega : ¬ (0 : Nat) = 0)
    · exact ⟨ho, hf⟩
  | cons hd rest ih =>
    intro s h
    obtain ⟨t1, t2, e⟩ := hd
    simp only [runFailingCalls]
    rw [executeFail_breaker]
    rcases h with ⟨hc, hf, hlen⟩ | ⟨ho, hf⟩
    · have hno : ¬ s.state = .OPEN := by simp [hc]
      rw [if_neg hno]
      apply ih
      by_cases h5 : 5 ≤ s.failures + 1
      · right
        refine ⟨by simp [onFailure, h5], by simp [onFailure]; omega⟩
      · left
        refine ⟨by simp [onFailure, h5, hc], by simp [onFailure]; omega, ?_⟩
        simp only [onFailure, List.length_cons] at hlen ⊢
        omega
    · rw [if_pos ho]
      by_cases ht : t1 - s.lastFailureTime > rt
      · rw [if_pos ht]
        apply ih
        right
        have h5 : 5 ≤ s.failures + 1 := by omega
        refine ⟨by simp [onFailure, h5], by simp [onFailure]; omega⟩
      · rw [if_neg ht]
        exact ih s (Or.inr ⟨ho, hf⟩)

/-- C1: after any sequence of at least 5 consecutive failing breaker-wrapped
calls from the initial state (threshold 5, one recorded failure per call),
the breaker is OPEN; the next call made while the elapsed time since the
last recorded failure is within the recovery timeout fails immediately with
the dedicated breaker-open error, the wrapped operation not being invoked
(attempted = false) and the state left unchanged. -/
theorem breaker_opens_after_threshold {σ α : Type}
    (rt : Nat) (trace : List (Nat × Nat × Err)) (h5 : 5 ≤ trace.length)
    (t1 t2 : Nat)
    (hwithin : t1 - (runFailingCalls 5 rt trace initBreaker).lastFailureTime ≤ rt)
    (op : σ → σ × Except Err α) (cs : σ) :
    (runFailingCalls 5 rt trace initBreaker).state = .OPEN ∧
    CircuitBreaker.execute 5 rt (runFailingCalls 5 rt trace initBreaker)
        t1 t2 op cs =
      ⟨runFailingCalls 5 rt trace initBreaker, cs, .error breakerOpenErr,
        false⟩ := by
  have hmain := runFailingCalls_opens rt trace initBreaker
    (Or.inl ⟨rfl, by decide, by simpa [initBreaker] using h5⟩)
  refine ⟨hmain.1, ?_⟩
  unfold CircuitBreaker.execute preCheck
  rw [if_pos hmain.1, if_neg (by omega)]

theorem breaker_opens_after_threshold_w :
    (runFailingCalls 5 30000
        [(0, 0, ⟨"econnrefused"⟩), (1, 1, ⟨"econnrefused"⟩),
         (2, 2, ⟨"econnrefused"⟩), (3, 3, ⟨"econnrefused"⟩),
         (4, 4, ⟨"econnrefused"⟩)] initBreaker).state = .OPEN ∧
    CircuitBreaker.execute 5 30000
        (runFailingCalls 5 30000
          [(0, 0, ⟨"econnrefused"⟩), (1, 1, ⟨"econnrefused"⟩),
           (2, 2, ⟨"econnrefused"⟩), (3, 3, ⟨"econnrefused"⟩),
           (4, 4, ⟨"econnrefused"⟩)] initBreaker) 100 100
        (fun (u : Unit) => (u, (Except.ok 0 : Except Err Nat))) () =
      ⟨runFailingCalls 5 30000
          [(0, 0, ⟨"econnrefused"⟩), (1, 1, ⟨"econnrefused"⟩),
           (2, 2, ⟨"econnrefused"⟩), (3, 3, ⟨"econnrefused"⟩),
           (4, 4, ⟨"econnrefused"⟩)] initBreaker,
        (), .error breakerOpenErr, false⟩ :=
  breaker_opens_after_threshold 30000 _ (by decide) 100 100 (by decide) _ ()

/-! ## Retry-loop evaluation lemmas -/

/-- A first attempt that succeeds ends the loop at one attempt, no sleep. -/
theorem retryLoop_ok1 {σ α : Type} (step : Nat → σ → σ × Except Err α)
    (d : Nat) (cs : σ) (a : α) (h : (step 1 cs).2 = .ok a) :
    retryLoop step 3 d cs = ⟨(step 1 cs).1, .ok a, [REv.tryAttempt 1]⟩ := by
  simp [retryLoop, retryAux, h]

/-- A first attempt failing non-retryably ends the loop at one attempt. -/
theorem retryLoop_stop1 {σ α : Type} (step : Nat → σ → σ × Except Err α)
    (d : Nat) (cs : σ) (e : Err) (h : (step 1 cs).2 = .error e)
    (hnr : nonRetryable e = true) :
    retryLoop step 3 d cs = ⟨(step 1 cs).1, .error e, [REv.tryAttempt 1]⟩ := by
  simp [retryLoop, retryAux, h, hnr]

/-- A retryable first failure followed by a success: two attempts, one
sleep of d * 2 before the second. -/
theorem retryLoop_ok2 {σ α : Type} (step : Nat → σ → σ × Except Err α)
    (d : Nat) (cs : σ) (e1 : Err) (a : α)
    (h1 : (step 1 cs).2 = .error e1) (r1 : nonRetryable e1 = false)
    (h2 : (step 2 (step 1 cs).1).2 = .ok a) :
    retryLoop step 3 d cs =
      ⟨(step 2 (step 1 cs).1).1, .ok a,
        [REv.tryAttempt 1, REv.sleep (d * 2), REv.tryAttempt 2]⟩ := by
  simp [retryLoop, retryAux, h1, r1, h2]

/-- Three retryable failures: three attempts, sleeps d * 2 and d * 3, and
the last error is the terminal one. -/
theorem retryLoop_fail3 {σ α : Type} (step : Nat → σ → σ × Except Err α)
    (d : Nat) (cs : σ) (e1 e2 e3 : Err)
    (h1 : (step 1 cs).2 = .error e1) (r1 : nonRetryable e1 = false)
    (h2 : (step 2 (step 1 cs).1).2 = .error e2) (r2 : nonRetryable e2 = false)
    (h3 : (step 3 (step 2 (step 1 cs).1).1).2 = .error e3)
    (r3 : nonRetryable e3 = false) :
    retryLoop step 3 d cs =
      ⟨(step 3 (step 2 (step 1 cs).1).1).1, .error e3,
        [REv.tryAttempt 1, REv.sleep (d * 2), REv.tryAttempt 2,
         REv.sleep (d * 3), REv.tryAttempt 3]⟩ := by
  simp [retryLoop, retryAux, h1, r1, h2, r2, h3, r3]

/-- C4: in the retry policy with R = 3, an attempt failing with an error
classified as a client error (message mapping to 400, 401 or 403) is
propagated immediately: classified so on the first attempt, exactly one
attempt is made; and when all three attempts fail with retryable errors,
the last observed error is the terminal one. -/
theorem retry_client_error_short_circuits {σ α : Type} (d : Nat) :
    (∀ (step : Nat → σ → σ × Except Err α) (cs : σ) (e : Err),
      (step 1 cs).2 = .error e → nonRetryable e = true →
      retryLoop step 3 d cs = ⟨(step 1 cs).1, .error e, [REv.tryAttempt 1]⟩ ∧
      countAttempts (retryLoop step 3 d cs).events = 1) ∧
    (∀ (step : Nat → σ → σ × Except Err α) (cs : σ) (e1 e2 e3 : Err),
      (step 1 cs).2 = .error e1 → nonRetryable e1 = false →
      (step 2 (step 1 cs).1).2 = .error e2 → nonRetryable e2 = false →
      (step 3 (step 2 (step 1 cs).1).1).2 = .error e3 →
        nonRetryable e3 = false →
      (retryLoop step 3 d cs).result = .error e3) := by
  constructor
  · intro step cs e h hnr
    have := retryLoop_stop1 step d cs e h hnr
    exact ⟨this, by rw [this]; rfl⟩
  · intro step cs e1 e2 e3 h1 r1 h2 r2 h3 r3
    rw [retryLoop_fail3 step d cs e1 e2 e3 h1 r1 h2 r2 h3 r3]

theorem retry_client_error_short_circuits_w :
    retryLoop (fun (_ : Nat) (u : Unit) =>
        (u, (Except.error ⟨"HTTP error! status: 400"⟩ : Except Err Nat)))
      3 1000 () =
      ⟨(), .error ⟨"HTTP error! status: 400"⟩, [REv.tryAttempt 1]⟩ ∧
    countAttempts (retryLoop (fun (_ : Nat) (u : Unit) =>
        (u, (Except.error ⟨"HTTP error! status: 400"⟩ : Except Err Nat)))
      3 1000 ()).events = 1 :=
  (retry_client_error_short_circuits 1000).1
    (fun _ u => (u, .error ⟨"HTTP error! status: 400"⟩)) () _ rfl (by decide)

/-- C5: with base delay d and R = 3, attempt 1 runs with no preceding
sleep, and every later attempt k is preceded by a sleep of exactly d * k:
shown on the three possible shapes of a run (success at attempt 1, at
attempt 2 after one retryable failure, and a full three-attempt run). -/
theorem retry_backoff_linear {σ α : Type} (d : Nat) :
    (∀ (step : Nat → σ → σ × Except Err α) (cs : σ) (a : α),
      (step 1 cs).2 = .ok a →
      (retryLoop step 3 d cs).events = [REv.tryAttempt 1]) ∧
    (∀ (step : Nat → σ → σ × Except Err α) (cs : σ) (e1 : Err) (a : α),
      (step 1 cs).2 = .error e1 → nonRetryable e1 = false →
      (step 2 (step 1 cs).1).2 = .ok a →
      (retryLoop step 3 d cs).events =
        [REv.tryAttempt 1, REv.sleep (d * 2), REv.tryAttempt 2]) ∧
    (∀ (step : Nat → σ → σ × Except Err α) (cs : σ) (e1 e2 e3 : Err),
      (step 1 cs).2 = .error e1 → nonRetryable e1 = false →
      (step 2 (step 1 cs).1).2 = .error e2 → nonRetryable e2 = false →
      (step 3 (step 2 (step 1 cs).1).1).2 = .error e3 →
        nonRetryable e3 = false →
      (retryLoop step 3 d cs).events =
        [REv.tryAttempt 1, REv.sleep (d * 2), REv.tryAttempt 2,
         REv.sleep (d * 3), REv.tryAttempt 3]) := by
  refine ⟨?_, ?_, ?_⟩
  · intro step cs a h
    rw [retryLoop_ok1 step d cs a h]
  · intro step cs e1 a h1 r1 h2
    rw [retryLoop_ok2 step d cs e1 a h1 r1 h2]
  · intro step cs e1 e2 e3 h1 r1 h2 r2 h3 r3
    rw [retryLoop_fail3 step d cs e1 e2 e3 h1 r1 h2 r2 h3 r3]

theorem retry_backoff_linear_w :
    (retryLoop (fun (_ : Nat) (u : Unit) =>
        (u, (Except.error ⟨"network down"⟩ : Except Err Nat))) 3 1000 ()).events
      = [REv.tryAttempt 1, REv.sleep 2000, REv.tryAttempt 2,
         REv.sleep 3000, REv.tryAttempt 3] :=
  (retry_backoff_linear 1000).2.2
    (fun _ u => (u, .error ⟨"network down"⟩)) () _ _ _
    rfl (by decide) rfl (by decide) rfl (by decide)

/-- When the breaker lets the call through, makeRequestWithRetry is the
retry loop followed by exactly one outcome recording. -/
theorem makeRequestWithRetry_allowed {σ α : Type} (thr rt maxA d : Nat)
    (step : Nat → σ → σ × Except Err α) (bs : BreakerState) (cs : σ)
    (tS tE : Nat) (hallow : (preCheck rt bs tS).2 = true) :
    makeRequestWithRetry thr rt maxA d step bs cs tS tE =
      (match (retryLoop step maxA d cs).result with
       | .ok a =>
         (⟨onSuccess (preCheck rt bs tS).1, (retryLoop step maxA d cs).final,
           .ok a, true⟩, (retryLoop step maxA d cs).events)
       | .error e =>
         (⟨onFailure thr (preCheck rt bs tS).1 tE,
           (retryLoop step maxA d cs).final, .error e, true⟩,
          (retryLoop step maxA d cs).events)) := by
  unfold makeRequestWithRetry
  have hpre : preCheck rt bs tS = ((preCheck rt bs tS).1, true) := by
    rw [← hallow]
  rw [hpre]

/-- C2: whenever a makeRequestWithRetry invocation is let through by the
breaker, the breaker records exactly one outcome for it: a success resets
the failure counter to 0, any failure increments it by exactly 1; in
particular a run whose three attempts all fail with retryable errors makes
3 attempts yet increments the counter by exactly 1, not 3. -/
theorem breaker_records_one_outcome {σ α : Type}
    (step : Nat → σ → σ × Except Err α) (bs : BreakerState) (cs : σ)
    (tS tE : Nat) (hallow : (preCheck 30000 bs tS).2 = true) :
    (∀ a, ((makeRequestWithRetry 5 30000 3 1000 step bs cs tS tE).1).result
        = .ok a →
      ((makeRequestWithRetry 5 30000 3 1000 step bs cs tS tE).1).breaker.failures
        = 0) ∧
    (∀ e, ((makeRequestWithRetry 5 30000 3 1000 step bs cs tS tE).1).result
        = .error e →
      ((makeRequestWithRetry 5 30000 3 1000 step bs cs tS tE).1).breaker.failures
        = bs.failures + 1) ∧
    ((∀ k st, ∃ e, (step k st).2 = .error e ∧ nonRetryable e = false) →
      countAttempts (makeRequestWithRetry 5 30000 3 1000 step bs cs tS tE).2
        = 3 ∧
      ((makeRequestWithRetry 5 30000 3 1000 step bs cs tS tE).1).breaker.failures
        = bs.failures + 1) := by
  have hsf : ((preCheck 30000 bs tS).1).failures = bs.failures :=
    preCheck_failures 30000 bs tS
  rw [makeRequestWithRetry_allowed 5 30000 3 1000 step bs cs tS tE hallow]
  refine ⟨?_, ?_, ?_⟩
  · intro a ha
    cases hres : (retryLoop step 3 1000 cs).result with
    | ok b => simp [hres, onSuccess]
    | error e => simp [hres] at ha
  · intro e he
    cases hres : (retryLoop step 3 1000 cs).result with
    | ok b => simp [hres] at he
    | error e2 => simp [hres, onFailure, hsf]
  · intro hall
    obtain ⟨e1, h1, r1⟩ := hall 1 cs
    obtain ⟨e2, h2, r2⟩ := hall 2 (step 1 cs).1
    obtain ⟨e3, h3, r3⟩ := hall 3 (step 2 (step 1 cs).1).1
    have hrl := retryLoop_fail3 step 1000 cs e1 e2 e3 h1 r1 h2 r2 h3 r3
    rw [hrl]
    exact ⟨rfl, by simp [onFailure, hsf]⟩

theorem breaker_records_one_outcome_w :
    countAttempts
      (makeRequestWithRetry 5 30000 3 1000
        (fun (_ : Nat) (u : Unit) =>
          (u, (Except.error ⟨"socket hang up"⟩ : Except Err Nat)))
        initBreaker () 0 0).2 = 3 ∧
    ((makeRequestWithRetry 5 30000 3 1000
        (fun (_ : Nat) (u : Unit) =>
          (u, (Except.error ⟨"socket hang up"⟩ : Except Err Nat)))
        initBreaker () 0 0).1).breaker.failures = initBreaker.failures + 1 :=
  (breaker_records_one_outcome
      (fun _ u => (u, .error ⟨"socket hang up"⟩)) initBreaker () 0 0
      (by decide)).2.2
    (fun k st => ⟨⟨"socket hang up"⟩, rfl, by decide⟩)

/-- A step that keeps the state fixed and always fails retryably makes all
three attempts and propagates the error as terminal. -/
theorem retryLoop_const_fail {σ α : Type} (step : Nat → σ → σ × Except Err α)
    (d : Nat) (cs : σ) (e : Err)
    (hstep : ∀ k, step k cs = (cs, .error e)) (hnr : nonRetryable e = false) :
    retryLoop step 3 d cs =
      ⟨cs, .error e,
        [REv.tryAttempt 1, REv.sleep (d * 2), REv.tryAttempt 2,
         REv.sleep (d * 3), REv.tryAttempt 3]⟩ := by
  have hst1 : (step 1 cs).1 = cs := congrArg Prod.fst (hstep 1)
  have h1 : (step 1 cs).2 = .error e := congrArg Prod.snd (hstep 1)
  have h2 : (step 2 (step 1 cs).1).2 = .error e := by
    rw [hst1]; exact congrArg Prod.snd (hstep 2)
  have hst2 : (step 2 (step 1 cs).1).1 = cs := by
    rw [hst1]; exact congrArg Prod.fst (hstep 2)
  have h3 : (step 3 (step 2 (step 1 cs).1).1).2 = .error e := by
    rw [hst2]; exact congrArg Prod.snd (hstep 3)
  have hst3 : (step 3 (step 2 (step 1 cs).1).1).1 = cs := by
    rw [hst2]; exact congrArg Prod.fst (hstep 3)
  rw [retryLoop_fail3 step d cs e e e h1 hnr h2 hnr h3 hnr, hst3]

/-- C6 counterexample: a JSON-parse failure is NOT terminal for the retry
policy. Decoding the malformed body yields the SyntaxError; its message
contains none of 400, 401, 403, so the classifier marks it retryable, and
a run in which every attempt returns this malformed body makes all 3
attempts, not 1. -/
theorem parse_error_not_terminal_cex :
    decodeBody "\x7bbad" = .error syntaxErr ∧
    nonRetryable syntaxErr = false ∧
    (retryLoop (mcpStep "tools/call"
        (fun _ => (FetchOutcome.failure "unused",
                   FetchOutcome.success ⟨true, 200, none, "\x7bbad"⟩)))
      3 1000 (⟨none, true⟩ : ClientState)).result = .error syntaxErr ∧
    countAttempts (retryLoop (mcpStep "tools/call"
        (fun _ => (FetchOutcome.failure "unused",
                   FetchOutcome.success ⟨true, 200, none, "\x7bbad"⟩)))
      3 1000 (⟨none, true⟩ : ClientState)).events = 3 ∧
    countAttempts (retryLoop (mcpStep "tools/call"
        (fun _ => (FetchOutcome.failure "unused",
                   FetchOutcome.success ⟨true, 200, none, "\x7bbad"⟩)))
      3 1000 (⟨none, true⟩ : ClientState)).events ≠ 1 := by
  refine ⟨rfl, by decide, rfl, rfl, by decide⟩

/-- C6 amended: a JSON-parse failure during response decoding is retryable
like any other non-client error: the retry policy retries it up to R = 3
attempts (its message contains none of 400, 401, 403) and only then
propagates the last parse error as terminal. -/
theorem parse_failure_is_retried
    (body : String) (s0 : Option String) (f0 : FetchOutcome)
    (hsse : strIncludes body "event: message" = false)
    (hbad : JSON.parse body = none) :
    retryLoop (mcpStep "tools/call"
        (fun _ => (f0, FetchOutcome.success ⟨true, 200, none, body⟩)))
      3 1000 (⟨s0, true⟩ : ClientState) =
      ⟨⟨s0, true⟩, .error syntaxErr,
        [REv.tryAttempt 1, REv.sleep 2000, REv.tryAttempt 2,
         REv.sleep 3000, REv.tryAttempt 3]⟩ := by
  have hstep : ∀ (k : Nat),
      mcpStep "tools/call"
        (fun _ => (f0, FetchOutcome.success ⟨true, 200, none, body⟩)) k
        (⟨s0, true⟩ : ClientState)
        = (⟨s0, true⟩, .error syntaxErr) := by
    intro k
    simp [mcpStep, makeRequest, makeRequestCore, fetchWithTimeout,
      decodeBody, hsse, plainDecode, hbad]
  exact retryLoop_const_fail _ 1000 _ syntaxErr hstep (by decide)

theorem parse_failure_is_retried_w :
    retryLoop (mcpStep "tools/call"
        (fun _ => (FetchOutcome.failure "unused",
                   FetchOutcome.success ⟨true, 200, none, "not json"⟩)))
      3 1000 (⟨none, true⟩ : ClientState) =
      ⟨⟨none, true⟩, .error syntaxErr,
        [REv.tryAttempt 1, REv.sleep 2000, REv.tryAttempt 2,
         REv.sleep 3000, REv.tryAttempt 3]⟩ :=
  parse_failure_is_retried "not json" none (FetchOutcome.failure "unused")
    (by decide) rfl

/-- Lines contributing no decision are skipped by the SSE scan. -/
theorem sseScan_skip (pre rest : List String)
    (h : ∀ l ∈ pre, dataDecision l = none) :
    sseScan (pre ++ rest) = sseScan rest := by
  induction pre with
  | nil => rfl
  | cons a as ih =>
    simp only [List.cons_append, sseScan]
    rw [h a (by simp)]
    exact ih (fun l hl => h l (by simp [hl]))

/-- If no line contributes a decision, the scan throws the dedicated
no-valid-result protocol error. -/
theorem sseScan_no_decision (lines : List String)
    (h : ∀ l ∈ lines, dataDecision l = none) :
    sseScan lines = .error ⟨"No valid result found in SSE response"⟩ := by
  induction lines with
  | nil => rfl
  | cons a as ih =>
    simp only [sseScan]
    rw [h a (by simp)]
    exact ih (fun l hl => h l (by simp [hl]))

/-- C7: SSE decoding scans the body lines. The concrete example body
decodes to the result object x = 1; a body in which no data line carries a
result or a truthy error fails with the no-valid-result protocol error;
the first data line carrying a decision determines the outcome; a data
line whose envelope has no error and a result field contributes that
result, and one whose envelope has a truthy error contributes the MCP
protocol error built from its message. -/
theorem sse_decode_first_decision :
    (decodeBody
        "event: message\ndata: \x7b\"protocol\":\"2.0\",\"id\":1,\"result\":\x7b\"x\":1\x7d\x7d\n"
      = .ok (Json.obj [("x", Json.num 1)])) ∧
    (∀ body : String, strIncludes body "event: message" = true →
      (∀ l ∈ splitLines body, dataDecision l = none) →
      decodeBody body = .error ⟨"No valid result found in SSE response"⟩) ∧
    (∀ (pre : List String) (l : String) (post : List String)
        (d : Except Err Json),
      (∀ l2 ∈ pre, dataDecision l2 = none) → dataDecision l = some d →
      sseScan (pre ++ l :: post) = d) ∧
    (∀ (l : String) (p r : Json),
      strStartsWith l "data: " = true → JSON.parse (strDrop l 6) = some p →
      accessField p "error" = .ok none → p.getField "result" = some r →
      dataDecision l = some (.ok r)) ∧
    (∀ (l : String) (p ev : Json),
      strStartsWith l "data: " = true → JSON.parse (strDrop l 6) = some p →
      accessField p "error" = .ok (some ev) → isTruthy ev = true →
      dataDecision l = some (.error ⟨"MCP error: " ++ errMessageText ev⟩)) := by
  refine ⟨rfl, ?_, ?_, ?_, ?_⟩
  · intro body hs h
    unfold decodeBody
    rw [if_pos (by rw [hs])]
    exact sseScan_no_decision _ h
  · intro pre l post d hpre hl
    rw [sseScan_skip pre (l :: post) hpre]
    simp [sseScan, hl]
  · intro l p r hst hparse herr hres
    simp [dataDecision, hst, hparse, dataLineStep, herr, hres]
  · intro l p ev hst hparse herr htr
    simp [dataDecision, hst, hparse, dataLineStep, herr, htr]

theorem sse_decode_first_decision_w :
    sseScan ["event: message", "data: \x7b\"result\":7\x7d", "extra"]
      = .ok (Json.num 7) :=
  sse_decode_first_decision.2.2.1 ["event: message"]
    "data: \x7b\"result\":7\x7d" ["extra"] (.ok (Json.num 7))
    (by
      intro l2 hl2
      rw [List.mem_singleton] at hl2
      subst hl2
      rfl)
    rfl

/-- C8: whatever the transport does, whenever the retried breaker-wrapped
call errors (network error, timeout, parse failure, protocol error,
breaker open, exhausted retries all surface this way), the four public
operations return their safe fallbacks instead of raising: pushFact,
updateFact and deleteFact return false, and getMemoryContext returns the
empty context for the requested user (all four are total functions whose
only error handling is this conversion). -/
theorem client_ops_never_throw
    (oracle : Nat → FetchOutcome × FetchOutcome) (bs : BreakerState)
    (cs : ClientState) (tS tE : Nat) (fact : CreateFact) (uid fid : String)
    (patch : FactPatch) (e : Err)
    (herr : ((clientCall oracle bs cs tS tE).1).result = .error e) :
    pushFact fact oracle bs cs tS tE =
      (((clientCall oracle bs cs tS tE).1).breaker,
       ((clientCall oracle bs cs tS tE).1).client, false) ∧
    updateFact fid patch oracle bs cs tS tE =
      (((clientCall oracle bs cs tS tE).1).breaker,
       ((clientCall oracle bs cs tS tE).1).client, false) ∧
    deleteFact fid oracle bs cs tS tE =
      (((clientCall oracle bs cs tS tE).1).breaker,
       ((clientCall oracle bs cs tS tE).1).client, false) ∧
    getMemoryContext uid oracle bs cs tS tE =
      (((clientCall oracle bs cs tS tE).1).breaker,
       ((clientCall oracle bs cs tS tE).1).client,
       (⟨Json.str uid, Json.arr []⟩ : MemoryContextV)) := by
  refine ⟨?_, ?_, ?_, ?_⟩ <;>
    simp only [pushFact, updateFact, deleteFact, getMemoryContext, herr]

theorem client_ops_never_throw_w :
    getMemoryContext "u1"
        (fun _ => (FetchOutcome.failure "ECONNREFUSED",
                   FetchOutcome.failure "ECONNREFUSED"))
        initBreaker ⟨none, false⟩ 0 0 =
      (((clientCall
            (fun _ => (FetchOutcome.failure "ECONNREFUSED",
                       FetchOutcome.failure "ECONNREFUSED"))
            initBreaker ⟨none, false⟩ 0 0).1).breaker,
       ((clientCall
            (fun _ => (FetchOutcome.failure "ECONNREFUSED",
                       FetchOutcome.failure "ECONNREFUSED"))
            initBreaker ⟨none, false⟩ 0 0).1).client,
       (⟨Json.str "u1", Json.arr []⟩ : MemoryContextV)) :=
  (client_ops_never_throw
      (fun _ => (FetchOutcome.failure "ECONNREFUSED",
                 FetchOutcome.failure "ECONNREFUSED"))
      initBreaker ⟨none, false⟩ 0 0 ⟨"s", "p", "o", "u"⟩ "u1" "f1"
      ⟨none, none, none⟩ ⟨"ECONNREFUSED"⟩ rfl).2.2.2
